import Mathlib

/-!
Shallow embedding of `src/core/model.py` (nanoGPT-kerascore): the forward
computation of the GPT model built from `EmbeddingDecoder`,
`CausalSelfAttention`, `Block` and `GPT`.

Modelling conventions:
* Tensors are total functions `ℕ → ℝ` (per axis); every operation carries its
  relevant dimension explicitly and sums over `Finset.range`.  Indices outside
  the declared dimensions are never read by the operations that respect the
  declared shapes, mirroring how numpy arrays are only read inside bounds.
* Real arithmetic is exact (`ℝ` with `Real.sqrt`, `Real.exp`); floating point
  rounding is abstracted away.
* The GELU activation of the `keras` backend (`activation="gelu"`, which uses
  the error function and has no closed rational form) is passed in as an
  explicit function argument `g : ℝ → ℝ`.
* Backend tensor ops that fail on invalid data are modelled with `Except`:
  the embedding gather fails on a token id outside `[0, vocab_size)` and the
  broadcast `wte + wpe` fails on incompatible shapes (numpy broadcasting:
  an axis of size 1 broadcasts, anything else must match).
* Randomness: each `Dropout` layer receives an explicit keep-mask (the
  backend's per-invocation randomness); in inference mode the mask is unused,
  as in `keras` (`layers.Dropout` is the identity when not training).
-/

noncomputable section

/-- Architecture hyperparameters, from `config.GPTConfig` as consumed by
`src/core/model.py`. -/
structure GPTConfig where
  vocab_size : ℕ
  block_size : ℕ
  hidden_size : ℕ
  n_head : ℕ
  n_layer : ℕ
  dropout : ℝ
  bias : Bool
  layer_norm_epsilon : ℝ
  batch_size : ℕ

/-- `keras` Dense layer on one feature row: `y j = Σ_i x i * kernel i j + bias j`
(kernel stored input-major, as `keras` does). -/
def denseApply (nIn : ℕ) (kernel : ℕ → ℕ → ℝ) (b : ℕ → ℝ) (useBias : Bool)
    (x : ℕ → ℝ) (j : ℕ) : ℝ :=
  (∑ i ∈ Finset.range nIn, x i * kernel i j) + (if useBias then b j else 0)

/-- Mean over the feature axis, used by `layers.LayerNormalization`. -/
def lnMean (n : ℕ) (x : ℕ → ℝ) : ℝ :=
  (∑ i ∈ Finset.range n, x i) / n

/-- Population variance over the feature axis, used by
`layers.LayerNormalization`. -/
def lnVar (n : ℕ) (x : ℕ → ℝ) : ℝ :=
  (∑ i ∈ Finset.range n, (x i - lnMean n x) ^ 2) / n

/-- `layers.LayerNormalization(epsilon)` on one feature row:
`(x - mean) / sqrt(var + eps) * gamma + beta`. -/
def layerNorm (n : ℕ) (eps : ℝ) (gamma beta : ℕ → ℝ) (x : ℕ → ℝ) (i : ℕ) : ℝ :=
  (x i - lnMean n x) / Real.sqrt (lnVar n x + eps) * gamma i + beta i

/-- `layers.Dropout(rate)`: inverted dropout.  In training mode a unit is kept
(and rescaled by `1/(1-rate)`) iff the backend's random keep-mask says so; in
inference mode the layer is the identity. -/
def dropoutApply (rate : ℝ) (keep : ℕ → Bool) (training : Bool)
    (x : ℕ → ℝ) (i : ℕ) : ℝ :=
  if training then (if keep i then x i / (1 - rate) else 0) else x i

/-- Parameters of one `CausalSelfAttention` layer: the fused qkv projection
`self.attn` (`hidden_size → 3*hidden_size`) and the output projection
`self.proj` (`hidden_size → hidden_size`). -/
structure AttnParams where
  attnKernel : ℕ → ℕ → ℝ
  attnBias : ℕ → ℝ
  projKernel : ℕ → ℕ → ℝ
  projBias : ℕ → ℝ

/-- `self.mask = tril(ones(1, block_size, block_size))` from
`CausalSelfAttention.__init__` (line 99), with the leading broadcast axis
dropped: entry `(i, j)` is `1` iff `j ≤ i`.  Note: `call` never reads it. -/
def csaMask (blockSize : ℕ) (i j : ℕ) : ℝ :=
  if i < blockSize ∧ j < blockSize ∧ j ≤ i then 1 else 0

/-- `C // n_head`: the per-head feature width. -/
def headSize (c : GPTConfig) : ℕ := c.hidden_size / c.n_head

/-- `attended = self.attn(inputs)` at position `t`, output column `j < 3C`. -/
def csaQKV (c : GPTConfig) (p : AttnParams) (x : ℕ → ℕ → ℝ) (t j : ℕ) : ℝ :=
  denseApply c.hidden_size p.attnKernel p.attnBias c.bias (x t) j

/-- The query tensor after split/reshape/transpose: head `h`, position `t`,
feature `s < headSize`. -/
def csaQ (c : GPTConfig) (p : AttnParams) (x : ℕ → ℕ → ℝ) (h t s : ℕ) : ℝ :=
  csaQKV c p x t (h * headSize c + s)

/-- The key tensor after split/reshape/transpose (second third of `attended`). -/
def csaK (c : GPTConfig) (p : AttnParams) (x : ℕ → ℕ → ℝ) (h t s : ℕ) : ℝ :=
  csaQKV c p x t (c.hidden_size + (h * headSize c + s))

/-- The value tensor after split/reshape/transpose (last third of `attended`). -/
def csaV (c : GPTConfig) (p : AttnParams) (x : ℕ → ℕ → ℝ) (h t s : ℕ) : ℝ :=
  csaQKV c p x t (2 * c.hidden_size + (h * headSize c + s))

/-- Line 118: `att = q @ k^T * (1 / sqrt(k.shape[-1]))`. -/
def csaScore (c : GPTConfig) (p : AttnParams) (x : ℕ → ℕ → ℝ) (h i j : ℕ) : ℝ :=
  (∑ s ∈ Finset.range (headSize c), csaQ c p x h i s * csaK c p x h j s) *
    (1 / Real.sqrt (headSize c))

/-- Lines 119-120 fused, per entry: `where(att == 0, -inf, att)` followed by the
numerator `exp` of the softmax; `exp(-inf) = 0` is encoded as weight `0`
(`ℝ` has no `-inf`, so the two lines are embedded as one map to softmax
numerators). -/
def maskedExpWeight (s : ℝ) : ℝ :=
  if s = 0 then 0 else Real.exp s

/-- The code's attention-weight pipeline on a raw score matrix: the
`where(att == 0, -inf, att)` rewrite followed by `softmax(axis=-1)` over the
`T` key positions.  Note the tril mask is NOT consulted. -/
def codeMaskedWeight (T : ℕ) (score : ℕ → ℕ → ℝ) (i j : ℕ) : ℝ :=
  maskedExpWeight (score i j) /
    ∑ j2 ∈ Finset.range T, maskedExpWeight (score i j2)

/-- The spec's described masking pipeline, for comparison with the code: first
zero every disallowed entry with the precomputed lower-triangular mask, then
rewrite exact zeros to `-inf`, then softmax over the `T` key positions. -/
def specMaskedWeight (blockSize T : ℕ) (score : ℕ → ℕ → ℝ) (i j : ℕ) : ℝ :=
  maskedExpWeight (score i j * csaMask blockSize i j) /
    ∑ j2 ∈ Finset.range T, maskedExpWeight (score i j2 * csaMask blockSize i j2)

/-- Softmaxed (and, per the code, zero-rewritten) attention weights of
`CausalSelfAttention.call`. -/
def csaAttnWeights (c : GPTConfig) (p : AttnParams) (x : ℕ → ℕ → ℝ) (T : ℕ)
    (h i j : ℕ) : ℝ :=
  codeMaskedWeight T (csaScore c p x h) i j

/-- `y = att @ v` for one head, after the attention dropout. -/
def csaHeadOut (c : GPTConfig) (p : AttnParams) (T : ℕ) (training : Bool)
    (keepAttn : ℕ → ℕ → ℕ → Bool) (x : ℕ → ℕ → ℝ) (h t s : ℕ) : ℝ :=
  ∑ j ∈ Finset.range T,
    dropoutApply c.dropout (keepAttn h t) training (csaAttnWeights c p x T h t) j *
      csaV c p x h j s

/-- Transpose back and reshape `(B, nh, T, hs)` to `(B, T, C)`: feature `cc`
comes from head `cc / hs`, per-head feature `cc % hs`. -/
def csaMerged (c : GPTConfig) (p : AttnParams) (T : ℕ) (training : Bool)
    (keepAttn : ℕ → ℕ → ℕ → Bool) (x : ℕ → ℕ → ℝ) (t cc : ℕ) : ℝ :=
  csaHeadOut c p T training keepAttn x (cc / headSize c) t (cc % headSize c)

/-- `CausalSelfAttention.call` (lines 103-128) on one batch row `x : (T, C)`:
qkv projection, per-head scaled dot-product scores, the zero-to-`-inf`
rewrite, softmax, attention dropout, value aggregation, head merge, output
projection, residual dropout. -/
def csaCall (c : GPTConfig) (p : AttnParams) (T : ℕ) (training : Bool)
    (keepAttn : ℕ → ℕ → ℕ → Bool) (keepResid : ℕ → ℕ → Bool)
    (x : ℕ → ℕ → ℝ) (t cc : ℕ) : ℝ :=
  dropoutApply c.dropout (keepResid t) training
    (denseApply c.hidden_size p.projKernel p.projBias c.bias
      (csaMerged c p T training keepAttn x t)) cc

/-- Parameters of one `Block`: the two layer norms, the attention layer, and
the two MLP Dense layers (`C → 4C` with GELU, then `4C → C`). -/
structure BlockParams where
  ln1Gamma : ℕ → ℝ
  ln1Beta : ℕ → ℝ
  ln2Gamma : ℕ → ℝ
  ln2Beta : ℕ → ℝ
  attn : AttnParams
  fcKernel : ℕ → ℕ → ℝ
  fcBias : ℕ → ℝ
  mlpProjKernel : ℕ → ℕ → ℝ
  mlpProjBias : ℕ → ℝ

/-- The `Block` MLP (`K.Sequential` of lines 137-149) on one feature row:
expand to `4C` with GELU activation `g`, contract to `C`, dropout. -/
def mlpCall (c : GPTConfig) (p : BlockParams) (g : ℝ → ℝ) (training : Bool)
    (keepMlp : ℕ → Bool) (x : ℕ → ℝ) (cc : ℕ) : ℝ :=
  dropoutApply c.dropout keepMlp training
    (denseApply (4 * c.hidden_size) p.mlpProjKernel p.mlpProjBias c.bias
      (fun j => g (denseApply c.hidden_size p.fcKernel p.fcBias c.bias x j))) cc

/-- `x + self.attn(self.ln1(x))` of `Block.call` (line 152). -/
def blockAttnRes (c : GPTConfig) (p : BlockParams) (T : ℕ) (training : Bool)
    (keepAttn : ℕ → ℕ → ℕ → Bool) (keepResid : ℕ → ℕ → Bool)
    (x : ℕ → ℕ → ℝ) (t cc : ℕ) : ℝ :=
  x t cc +
    csaCall c p.attn T training keepAttn keepResid
      (fun t2 => layerNorm c.hidden_size c.layer_norm_epsilon p.ln1Gamma p.ln1Beta (x t2))
      t cc

/-- `Block.call` (lines 151-154): pre-norm attention residual, then pre-norm
MLP residual. -/
def blockCall (c : GPTConfig) (p : BlockParams) (g : ℝ → ℝ) (T : ℕ)
    (training : Bool) (keepAttn : ℕ → ℕ → ℕ → Bool) (keepResid : ℕ → ℕ → Bool)
    (keepMlp : ℕ → ℕ → Bool) (x : ℕ → ℕ → ℝ) (t cc : ℕ) : ℝ :=
  blockAttnRes c p T training keepAttn keepResid x t cc +
    mlpCall c p g training (keepMlp t)
      (layerNorm c.hidden_size c.layer_norm_epsilon p.ln2Gamma p.ln2Beta
        (blockAttnRes c p T training keepAttn keepResid x t)) cc

/-- Parameters of the whole `GPT` model.  `wte` is the token embedding table
`(vocab_size, hidden_size)`; it is the single parameter shared by reference
with the decoder head (`EmbeddingDecoder(tied_to=self.tok_emb)` at line 173),
which is why the head below reads the same `wte` field.  `headBias` is the
decoder bias, of shape `(1, T, vocab_size)` as built for the call-time `T`. -/
structure GPTParams where
  wte : ℕ → ℕ → ℝ
  pos : ℕ → ℕ → ℝ
  blocks : ℕ → BlockParams
  lnfGamma : ℕ → ℝ
  lnfBeta : ℕ → ℝ
  headBias : ℕ → ℕ → ℝ

/-- Keep-masks for every dropout site: the model-level embedding dropout and,
per layer, the attention, residual and MLP dropouts (batch-row indexed). -/
structure DropNoise where
  keepEmb : ℕ → ℕ → ℕ → Bool
  keepAttn : ℕ → ℕ → ℕ → ℕ → ℕ → Bool
  keepResid : ℕ → ℕ → ℕ → ℕ → Bool
  keepMlp : ℕ → ℕ → ℕ → ℕ → Bool

/-- `kernel = transpose(self.tied_to.embeddings)` of `EmbeddingDecoder.call`
(line 56): the decoder's effective weight matrix, always recomputed from the
current embedding table. -/
def decoderKernel (wte : ℕ → ℕ → ℝ) (h v : ℕ) : ℝ := wte v h

/-- `EmbeddingDecoder.call` (lines 54-62) with no activation, as used by `GPT`:
`x @ transpose(embeddings) + bias`. -/
def embeddingDecoderCall (c : GPTConfig) (wte : ℕ → ℕ → ℝ)
    (headBias : ℕ → ℕ → ℝ) (x : ℕ → ℕ → ℝ) (t v : ℕ) : ℝ :=
  (∑ h ∈ Finset.range c.hidden_size, x t h * decoderKernel wte h v) +
    (if c.bias then headBias t v else 0)

/-- `EmbeddingDecoder.compute_output_shape` (lines 64-67): replace the last
axis by `units`. -/
def computeOutputShape (units : ℕ) (inputShape : List ℕ) : List ℕ :=
  inputShape.dropLast ++ [units]

/-- `wte + wpe` per position and feature: token embedding lookup plus the
(sliced) positional embedding. -/
def gptEmbed (p : GPTParams) (ids : ℕ → ℕ) (wpe : ℕ → ℕ → ℝ) (t h : ℕ) : ℝ :=
  p.wte (ids t) h + wpe t h

/-- The sequential pass through the `n_layer` blocks of one batch row
(`for block in self.blocks: x = block(x, training=training)`). -/
def gptBlocks (c : GPTConfig) (p : GPTParams) (g : ℝ → ℝ) (T : ℕ)
    (training : Bool) (noise : DropNoise) (b : ℕ) (x0 : ℕ → ℕ → ℝ) :
    ℕ → ℕ → ℝ :=
  (List.range c.n_layer).foldl
    (fun x l =>
      blockCall c (p.blocks l) g T training (noise.keepAttn l b)
        (noise.keepResid l b) (noise.keepMlp l b) x)
    x0

/-- One batch row of `GPT.call` (lines 184-196): embed + positional add,
embedding dropout, blocks, final layer norm, decoder head.  Produces the
logits `(t, v) ↦ ℝ`. -/
def gptRow (c : GPTConfig) (p : GPTParams) (g : ℝ → ℝ) (T : ℕ)
    (training : Bool) (noise : DropNoise) (wpe : ℕ → ℕ → ℝ) (b : ℕ)
    (ids : ℕ → ℕ) (t v : ℕ) : ℝ :=
  embeddingDecoderCall c p.wte p.headBias
    (fun t2 =>
      layerNorm c.hidden_size c.layer_norm_epsilon p.lnfGamma p.lnfBeta
        (gptBlocks c p g T training noise b
          (fun t3 h =>
            dropoutApply c.dropout (noise.keepEmb b t3) training
              (fun h2 => gptEmbed p ids wpe t3 h2) h)
          t2))
    t v

/-- The error taxonomy of a forward call: the backend's out-of-range gather
on the embedding lookup, and the shape mismatch of the `wte + wpe` broadcast. -/
inductive ForwardError where
  | indexError : ForwardError
  | shapeError : ForwardError

/-- `GPT.call` (lines 184-196) on an integer batch of shape `(B, T)`.
Following the source order: `self.tok_emb(inputs)` first (the gather fails on
any id outside `[0, vocab_size)`), then `self.pos_emb[:, :T, :]` is sliced to
`min T block_size` positions and added with numpy broadcasting: the add
succeeds iff the sliced length equals `T` (i.e. `T ≤ block_size`) or equals 1
(i.e. `block_size = 1`, broadcast over positions), and otherwise raises. -/
def GPT.forward (c : GPTConfig) (p : GPTParams) (g : ℝ → ℝ) (B T : ℕ)
    (ids : ℕ → ℕ → ℕ) (training : Bool) (noise : DropNoise) :
    Except ForwardError (ℕ → ℕ → ℕ → ℝ) :=
  if ∀ b < B, ∀ t < T, ids b t < c.vocab_size then
    if T ≤ c.block_size then
      Except.ok (fun b => gptRow c p g T training noise p.pos b (ids b))
    else if c.block_size = 1 then
      Except.ok (fun b => gptRow c p g T training noise (fun _ h => p.pos 0 h) b (ids b))
    else Except.error ForwardError.shapeError
  else Except.error ForwardError.indexError

/-- The forward output materialized as a nested list, so its shape is an
observable property: the outer list is the batch, then positions, then the
vocabulary logits. -/
def GPT.forwardList (c : GPTConfig) (p : GPTParams) (g : ℝ → ℝ) (B T : ℕ)
    (ids : ℕ → ℕ → ℕ) (training : Bool) (noise : DropNoise) :
    Except ForwardError (List (List (List ℝ))) :=
  (GPT.forward c p g B T ids training noise).map
    (fun f =>
      (List.range B).map fun b =>
        (List.range T).map fun t =>
          (List.range c.vocab_size).map fun v => f b t v)

/-- Reads one logit out of a forward result; `none` when the call failed. -/
def logitAt (r : Except ForwardError (ℕ → ℕ → ℕ → ℝ)) (b t v : ℕ) : Option ℝ :=
  match r with
  | Except.ok f => some (f b t v)
  | Except.error _ => none

/-- Whether an `Except` result is a success. -/
def exceptIsOk {ε α : Type} : Except ε α → Bool
  | Except.ok _ => true
  | Except.error _ => false

/-- `ConfigError`: the construction-time failure of the
`assert config.hidden_size % config.n_head == 0` precondition (line 82). -/
inductive ConfigError where
  | configError : ConfigError

/-- The single construction-time check of `CausalSelfAttention.__init__`. -/
def csaInitCheck (c : GPTConfig) : Except ConfigError Unit :=
  if c.hidden_size % c.n_head = 0 then Except.ok () else Except.error ConfigError.configError

/-- Building the `n` blocks of `GPT.__init__` in order, each running the
attention-layer assertion once; returns the outcome together with how many
times the check executed (construction stops at the first failure). -/
def gptBuildBlocks (c : GPTConfig) : ℕ → Except ConfigError Unit × ℕ
  | 0 => (Except.ok (), 0)
  | n + 1 =>
    match csaInitCheck c with
    | Except.ok _ => ((gptBuildBlocks c n).1, (gptBuildBlocks c n).2 + 1)
    | Except.error e => (Except.error e, 1)

/-- The validation effect of `GPT.__init__`: build all `n_layer` blocks. -/
def GPT.init (c : GPTConfig) : Except ConfigError Unit × ℕ :=
  gptBuildBlocks c c.n_layer

/-- Build-state of an `EmbeddingDecoder` layer: whether `build` ran, and the
shape of the bias weight it created (if any). -/
structure DecoderBuildState where
  built : Bool
  biasShape : Option (ℕ × ℕ × ℕ)

/-- `EmbeddingDecoder.build` (lines 40-52): unpack `(B, T, H)` and, when bias
is in use, create the bias weight with shape `(1, T, units)`. -/
def decoderBuild (units : ℕ) (useBias : Bool) (inputShape : ℕ × ℕ × ℕ) :
    DecoderBuildState :=
  ⟨true, if useBias then some (1, inputShape.2.1, units) else none⟩

/-- `keras` builds a layer at most once: a second `build` on an already-built
layer is a no-op. -/
def decoderBuildOnce (units : ℕ) (useBias : Bool) (st : DecoderBuildState)
    (inputShape : ℕ × ℕ × ℕ) : DecoderBuildState :=
  if st.built then st else decoderBuild units useBias inputShape

/-- An unbuilt `EmbeddingDecoder`. -/
def decoderFresh : DecoderBuildState := ⟨false, none⟩

/-- Stddev of the fused qkv `Dense` kernel initializer (line 86). -/
def attnQKVStd (_c : GPTConfig) : ℝ := 0.02

/-- Stddev of the attention output-projection kernel initializer (line 95). -/
def attnProjStd (c : GPTConfig) : ℝ := 0.02 / Real.sqrt (2 * (c.n_layer : ℝ))

/-- Stddev of the MLP expansion `Dense` kernel initializer (line 140). -/
def mlpFcStd (_c : GPTConfig) : ℝ := 0.02

/-- Stddev of the MLP contraction (residual-path output) `Dense` kernel
initializer (line 145). -/
def mlpProjStd (_c : GPTConfig) : ℝ := 0.02

/-- Stddev of the token embedding initializer (line 165). -/
def tokEmbStd (_c : GPTConfig) : ℝ := 0.02

/-- Stddev of the positional embedding initializer (line 180). -/
def posEmbStd (_c : GPTConfig) : ℝ := 0.02

/-! Concrete instances used by the closed theorems and witnesses below. -/

/-- A small concrete configuration: vocabulary 3, context 2, width 2, 2 heads
(head size 1), 1 layer, no dropout, biases on, layer-norm epsilon 1. -/
def cfgC : GPTConfig :=
  { vocab_size := 3, block_size := 2, hidden_size := 2, n_head := 2,
    n_layer := 1, dropout := 0, bias := true, layer_norm_epsilon := 1,
    batch_size := 1 }

/-- A concrete token embedding table over vocabulary `{0, 1, 2}`:
`E 0 = E 1 = (3/4, -3/4)` and `E 2 = (-3/4, 3/4)`. -/
def embC : ℕ → ℕ → ℝ := fun v h =>
  if v = 2 then (if h = 0 then -(3 / 4) else if h = 1 then 3 / 4 else 0)
  else if v < 2 then (if h = 0 then 3 / 4 else if h = 1 then -(3 / 4) else 0)
  else 0

/-- Concrete attention parameters: queries and keys are the constant 1 (their
kernel columns are zero and their bias entries are one), head 0 reads feature
0 as its value, head 1 has value 0, and the output projection is the
identity. -/
def attnC : AttnParams :=
  { attnKernel := fun i j => if i = 0 ∧ j = 4 then 1 else 0,
    attnBias := fun j => if j ≤ 3 then 1 else 0,
    projKernel := fun i j => if i = j then 1 else 0,
    projBias := fun _ => 0 }

/-- Concrete block parameters: `ln1` passes its normalized input through
(`gamma = 1`), `ln2` has `gamma = 0` so the MLP sees the zero row, and the
MLP kernels are zero, so the MLP contributes nothing to the residual. -/
def blockC : BlockParams :=
  { ln1Gamma := fun _ => 1, ln1Beta := fun _ => 0,
    ln2Gamma := fun _ => 0, ln2Beta := fun _ => 0,
    attn := attnC,
    fcKernel := fun _ _ => 0, fcBias := fun _ => 0,
    mlpProjKernel := fun _ _ => 0, mlpProjBias := fun _ => 0 }

/-- Concrete model parameters for `cfgC`: zero positional embeddings, the
single block `blockC`, a pass-through final layer norm and a zero decoder
bias. -/
def paramsC : GPTParams :=
  { wte := embC, pos := fun _ _ => 0, blocks := fun _ => blockC,
    lnfGamma := fun _ => 1, lnfBeta := fun _ => 0, headBias := fun _ _ => 0 }

/-- All-zero model parameters (any widths). -/
def zeroParams : GPTParams :=
  { wte := fun _ _ => 0, pos := fun _ _ => 0,
    blocks := fun _ =>
      { ln1Gamma := fun _ => 0, ln1Beta := fun _ => 0,
        ln2Gamma := fun _ => 0, ln2Beta := fun _ => 0,
        attn := { attnKernel := fun _ _ => 0, attnBias := fun _ => 0,
                  projKernel := fun _ _ => 0, projBias := fun _ => 0 },
        fcKernel := fun _ _ => 0, fcBias := fun _ => 0,
        mlpProjKernel := fun _ _ => 0, mlpProjBias := fun _ => 0 },
    lnfGamma := fun _ => 0, lnfBeta := fun _ => 0, headBias := fun _ _ => 0 }

/-- A trivial dropout noise source (keep everything). -/
def noise0 : DropNoise :=
  { keepEmb := fun _ _ _ => true, keepAttn := fun _ _ _ _ _ => true,
    keepResid := fun _ _ _ _ => true, keepMlp := fun _ _ _ _ => true }

/-- Input batch `[[0, 1]]`. -/
def idsA : ℕ → ℕ → ℕ := fun _ t => if t = 0 then 0 else 1

/-- Input batch `[[0, 2]]`: identical to `idsA` except at position 1. -/
def idsB : ℕ → ℕ → ℕ := fun _ t => if t = 0 then 0 else 2

/-- The all-ones 2 x 2 score matrix. -/
def scoresOne : ℕ → ℕ → ℝ := fun _ _ => 1

/-- A configuration with `block_size = 1` (otherwise like `cfgC`). -/
def cfgB1 : GPTConfig :=
  { vocab_size := 3, block_size := 1, hidden_size := 2, n_head := 2,
    n_layer := 1, dropout := 0, bias := true, layer_norm_epsilon := 1,
    batch_size := 1 }

/-- The boundary configuration of the spec: `hidden_size = 10`, `n_head = 3`. -/
def cfg103 : GPTConfig :=
  { vocab_size := 65, block_size := 8, hidden_size := 10, n_head := 3,
    n_layer := 2, dropout := 0, bias := true, layer_norm_epsilon := 1,
    batch_size := 1 }

/-! Helper lemmas for concrete square roots and the uniform softmax row. -/

theorem sqrt2516 : Real.sqrt ((25 : ℝ) / 16) = 5 / 4 := by
  rw [show (25 / 16 : ℝ) = (5 / 4) ^ 2 by norm_num]
  exact Real.sqrt_sq (by norm_num)

theorem sqrt841400 : Real.sqrt ((841 : ℝ) / 400) = 29 / 20 := by
  rw [show (841 / 400 : ℝ) = (29 / 20) ^ 2 by norm_num]
  exact Real.sqrt_sq (by norm_num)

theorem sqrt25 : Real.sqrt 25 = 5 := by
  rw [show (25 : ℝ) = 5 ^ 2 by norm_num]
  exact Real.sqrt_sq (by norm_num)

theorem sqrt16 : Real.sqrt 16 = 4 := by
  rw [show (16 : ℝ) = 4 ^ 2 by norm_num]
  exact Real.sqrt_sq (by norm_num)

theorem sqrt841 : Real.sqrt 841 = 29 := by
  rw [show (841 : ℝ) = 29 ^ 2 by norm_num]
  exact Real.sqrt_sq (by norm_num)

theorem sqrt400 : Real.sqrt 400 = 20 := by
  rw [show (400 : ℝ) = 20 ^ 2 by norm_num]
  exact Real.sqrt_sq (by norm_num)

theorem expHalfRow : Real.exp 1 / (Real.exp 1 + Real.exp 1) = 1 / 2 := by
  have h : Real.exp 1 ≠ 0 := Real.exp_ne_zero 1
  field_simp
  ring

/-! C3: weight tying between the token embedding and the decoder head. -/

/-- C3: mutating the token embedding table by a delta changes the decoder
head's effective weight matrix by the transpose of that same delta:
`EmbeddingDecoder.call` always computes logits as the input times the
transpose of the current embedding matrix (the one shared parameter), plus
the optional bias, so the logits shift by exactly `x ⬝ deltaᵀ`. -/
theorem c3_weight_tying (c : GPTConfig) (wte delta : ℕ → ℕ → ℝ)
    (headBias : ℕ → ℕ → ℝ) (x : ℕ → ℕ → ℝ) (t v : ℕ) :
    (∀ h2 v2, decoderKernel (fun a b2 => wte a b2 + delta a b2) h2 v2 =
      decoderKernel wte h2 v2 + delta v2 h2) ∧
    embeddingDecoderCall c (fun a b2 => wte a b2 + delta a b2) headBias x t v =
      embeddingDecoderCall c wte headBias x t v +
        ∑ h2 ∈ Finset.range c.hidden_size, x t h2 * delta v h2 := by
  constructor
  · intro h2 v2
    rfl
  · unfold embeddingDecoderCall decoderKernel
    simp only [mul_add, Finset.sum_add_distrib]
    ring

/-! C4: initializer standard deviations. -/

/-- C4 counterexample: in the code the MLP contraction (the residual-facing
output projection of the MLP sublayer, line 145) is initialized with stddev
`0.02`, not `0.02 / sqrt(2 * n_layer)`: at `n_layer = 2` the claimed value
would be `0.01`. -/
theorem c4_counterexample :
    mlpProjStd cfg103 ≠ 0.02 / Real.sqrt (2 * (cfg103.n_layer : ℝ)) := by
  have h2 : (cfg103.n_layer : ℝ) = 2 := by norm_num [cfg103]
  rw [mlpProjStd, h2, show (2 * (2 : ℝ)) = 4 by norm_num,
    show (4 : ℝ) = 2 ^ 2 by norm_num, Real.sqrt_sq (by norm_num : (0 : ℝ) ≤ 2)]
  norm_num

/-- C4 (amended): every linear-layer kernel initializer has stddev `0.02`
except the attention output projection alone, whose stddev is
`0.02 / sqrt(2 * n_layer)`; the MLP contraction keeps `0.02`, and both
embedding tables use `0.02`. -/
theorem c4_amended (c : GPTConfig) :
    attnQKVStd c = 0.02 ∧
    attnProjStd c = 0.02 / Real.sqrt (2 * (c.n_layer : ℝ)) ∧
    mlpFcStd c = 0.02 ∧
    mlpProjStd c = 0.02 ∧
    tokEmbStd c = 0.02 ∧
    posEmbStd c = 0.02 :=
  ⟨rfl, rfl, rfl, rfl, rfl, rfl⟩

/-! C7: out-of-range token ids fail at the start of the forward call. -/

/-- C7: if any token id in the batch lies outside `[0, vocab_size)`, the
forward call fails with the index error raised by the embedding gather (the
first operation of `GPT.call`), producing no output. -/
theorem c7_index_error (c : GPTConfig) (p : GPTParams) (g : ℝ → ℝ) (B T : ℕ)
    (ids : ℕ → ℕ → ℕ) (training : Bool) (noise : DropNoise)
    (hbad : ¬ ∀ b < B, ∀ t < T, ids b t < c.vocab_size) :
    GPT.forward c p g B T ids training noise = Except.error ForwardError.indexError := by
  rw [GPT.forward, if_neg hbad]

/-- C7 witness: batch `[[7, 0]]` against `cfgC` (vocabulary 3) fails with the
index error. -/
theorem c7_witness :
    GPT.forward cfgC paramsC (fun x => x) 1 2 (fun _ t => if t = 0 then 7 else 0)
      false noise0 = Except.error ForwardError.indexError := by
  refine c7_index_error cfgC paramsC (fun x => x) 1 2 _ false noise0 ?_
  intro hall
  have h7 := hall 0 (by norm_num) 0 (by norm_num)
  norm_num [cfgC] at h7

/-! C8: the construction-time divisibility check. -/

theorem gptBuildBlocks_ok (c : GPTConfig) (hdiv : c.hidden_size % c.n_head = 0) :
    ∀ n, gptBuildBlocks c n = (Except.ok (), n) := by
  intro n
  induction n with
  | zero => rfl
  | succ n ih => simp [gptBuildBlocks, csaInitCheck, hdiv, ih]

/-- C8: when `hidden_size % n_head ≠ 0` (and there is at least one layer),
construction fails with the config error after exactly one execution of the
check, producing no model; when `hidden_size % n_head = 0` the check passes
for every block and construction succeeds. -/
theorem c8_config_check (c : GPTConfig) (hL : 1 ≤ c.n_layer) :
    (c.hidden_size % c.n_head ≠ 0 →
      GPT.init c = (Except.error ConfigError.configError, 1)) ∧
    (c.hidden_size % c.n_head = 0 →
      GPT.init c = (Except.ok (), c.n_layer)) := by
  constructor
  · intro hbad
    obtain ⟨m, hm⟩ : ∃ m, c.n_layer = m + 1 := ⟨c.n_layer - 1, by omega⟩
    unfold GPT.init
    rw [hm]
    simp [gptBuildBlocks, csaInitCheck, hbad]
  · intro hdiv
    unfold GPT.init
    exact gptBuildBlocks_ok c hdiv c.n_layer

/-- C8 witness: `hidden_size = 10`, `n_head = 3` fails at construction with
the config error, the check having run exactly once. -/
theorem c8_witness :
    GPT.init cfg103 = (Except.error ConfigError.configError, 1) :=
  (c8_config_check cfg103 (by norm_num [cfg103])).1 (by norm_num [cfg103])

/-! C10: the decoder bias shape is fixed by the first build. -/

/-- C10: with bias enabled, `EmbeddingDecoder.build` creates the bias weight
with shape `(1, T, units)` where `T` is the sequence length of the build-time
input shape, and a later build on the already-built layer changes nothing, so
the bias shape stays specific to that first sequence length. -/
theorem c10_bias_shape (u B T H : ℕ) (s2 : ℕ × ℕ × ℕ) :
    (decoderBuildOnce u true decoderFresh (B, T, H)).biasShape = some (1, T, u) ∧
    decoderBuildOnce u true (decoderBuildOnce u true decoderFresh (B, T, H)) s2 =
      decoderBuildOnce u true decoderFresh (B, T, H) := by
  constructor
  · rfl
  · rfl

/-! C5: output shape of a valid forward call. -/

/-- C5: for every valid input of shape `(B, T)` with `T ≤ block_size` and all
token ids in `[0, vocab_size)`, the forward call succeeds and its output has
shape exactly `(B, T, vocab_size)`; this agrees with
`EmbeddingDecoder.compute_output_shape` applied to the decoder input shape. -/
theorem c5_output_shape (c : GPTConfig) (p : GPTParams) (g : ℝ → ℝ) (B T : ℕ)
    (ids : ℕ → ℕ → ℕ) (training : Bool) (noise : DropNoise)
    (hT : T ≤ c.block_size)
    (hids : ∀ b < B, ∀ t < T, ids b t < c.vocab_size) :
    (∃ out, GPT.forwardList c p g B T ids training noise = Except.ok out ∧
      out.length = B ∧
      ∀ r ∈ out, r.length = T ∧ ∀ q ∈ r, q.length = c.vocab_size) ∧
    computeOutputShape c.vocab_size [B, T, c.hidden_size] = [B, T, c.vocab_size] := by
  constructor
  · refine ⟨(List.range B).map fun b => (List.range T).map fun t =>
      (List.range c.vocab_size).map fun v =>
        gptRow c p g T training noise p.pos b (ids b) t v, ?_, ?_, ?_⟩
    · unfold GPT.forwardList GPT.forward
      rw [if_pos hids, if_pos hT]
      rfl
    · simp
    · intro r hr
      simp only [List.mem_map, List.mem_range] at hr
      obtain ⟨b, -, hb⟩ := hr
      subst hb
      constructor
      · simp
      · intro q hq
        simp only [List.mem_map, List.mem_range] at hq
        obtain ⟨t, -, ht⟩ := hq
        subst ht
        simp
  · rfl

/-- C5 witness: a concrete valid call against `cfgC` has output shape
`(1, 2, 3)`. -/
theorem c5_witness :
    (∃ out, GPT.forwardList cfgC paramsC (fun x => x) 1 2 idsA false noise0 =
        Except.ok out ∧
      out.length = 1 ∧
      ∀ r ∈ out, r.length = 2 ∧ ∀ q ∈ r, q.length = cfgC.vocab_size) ∧
    computeOutputShape cfgC.vocab_size [1, 2, cfgC.hidden_size] =
      [1, 2, cfgC.vocab_size] :=
  c5_output_shape cfgC paramsC (fun x => x) 1 2 idsA false noise0
    (by norm_num [cfgC])
    (by
      intro b hb t ht
      interval_cases t <;> norm_num [idsA, cfgC])

/-! C6: the sequence-length boundary. -/

/-- C6 (amended): when `block_size ≥ 2`, a forward call at sequence length
exactly `block_size` succeeds and one at `block_size + 1` fails with the
shape error of the `wte + wpe` broadcast, producing no output.  (The
`block_size ≥ 2` proviso is forced: with `block_size = 1` the sliced
positional embedding has one position, which numpy broadcasting accepts
against any `T`, so no error is raised — see the counterexample.) -/
theorem c6_boundary (c : GPTConfig) (p : GPTParams) (g : ℝ → ℝ) (B : ℕ)
    (ids : ℕ → ℕ → ℕ) (training : Bool) (noise : DropNoise)
    (h2 : 2 ≤ c.block_size)
    (hids : ∀ b < B, ∀ t < c.block_size + 1, ids b t < c.vocab_size) :
    (∃ f, GPT.forward c p g B c.block_size ids training noise = Except.ok f) ∧
    GPT.forward c p g B (c.block_size + 1) ids training noise =
      Except.error ForwardError.shapeError := by
  constructor
  · refine ⟨fun b => gptRow c p g c.block_size training noise p.pos b (ids b), ?_⟩
    unfold GPT.forward
    rw [if_pos (fun b hb t ht => hids b hb t (by omega)), if_pos le_rfl]
  · unfold GPT.forward
    rw [if_pos hids, if_neg (by omega), if_neg (by omega)]

/-- C6 witness: against `cfgC` (`block_size = 2`), length 2 succeeds and
length 3 fails with the shape error. -/
theorem c6_witness :
    (∃ f, GPT.forward cfgC paramsC (fun x => x) 1 cfgC.block_size idsA false noise0 =
      Except.ok f) ∧
    GPT.forward cfgC paramsC (fun x => x) 1 (cfgC.block_size + 1) idsA false noise0 =
      Except.error ForwardError.shapeError :=
  c6_boundary cfgC paramsC (fun x => x) 1 idsA false noise0
    (by norm_num [cfgC])
    (by
      intro b hb t ht
      by_cases h : t = 0 <;> simp [idsA, cfgC, h])

/-- C6 counterexample: the claim fails as stated when `block_size = 1`: the
sequence length `block_size + 1 = 2` call against `cfgB1` succeeds (the
one-position slice of `pos_emb` broadcasts over both positions), instead of
failing with a shape error. -/
theorem c6_counterexample :
    cfgB1.block_size = 1 ∧
    exceptIsOk (GPT.forward cfgB1 paramsC (fun x => x) 1 (cfgB1.block_size + 1)
      idsA false noise0) = true := by
  constructor
  · rfl
  · unfold GPT.forward
    rw [if_pos ?hids, if_neg (by norm_num [cfgB1]), if_pos (by norm_num [cfgB1])]
    · rfl
    case hids =>
      intro b hb t ht
      by_cases h : t = 0 <;> simp [idsA, cfgB1, h]

/-! C9: inference-mode determinism. -/

/-- C9: two forward calls in inference mode (training flag off) with the same
parameters and input are bit-identical regardless of the backend's dropout
randomness — the inference-mode forward pass is a deterministic function of
the parameters and the input, every dropout layer acting as the identity. -/
theorem c9_inference_deterministic (c : GPTConfig) (p : GPTParams) (g : ℝ → ℝ)
    (B T : ℕ) (ids : ℕ → ℕ → ℕ) (noise1 noise2 : DropNoise) :
    GPT.forward c p g B T ids false noise1 = GPT.forward c p g B T ids false noise2 ∧
    ∀ (rate : ℝ) (keep : ℕ → Bool) (x : ℕ → ℝ),
      dropoutApply rate keep false x = x := by
  exact ⟨rfl, fun rate keep x => rfl⟩

/-! C2: the masking mechanism of `CausalSelfAttention.call`. -/

/-- C2: the code does NOT apply the described zeroing step.  On the all-ones
2 x 2 score matrix, the claimed pipeline (zero disallowed entries with the
tril mask, rewrite exact zeros to `-inf`, softmax) gives the disallowed entry
`(i, j) = (0, 1)` attention weight `0`, but the code's pipeline (only the
`where(att == 0, -inf, att)` rewrite, then softmax — the precomputed mask is
never read in `call`) gives it weight `1/2`. -/
theorem c2_mask_not_applied :
    csaMask 2 0 1 = 0 ∧
    specMaskedWeight 2 2 scoresOne 0 1 = 0 ∧
    codeMaskedWeight 2 scoresOne 0 1 = 1 / 2 ∧
    ((1 : ℝ) / 2) ≠ 0 := by
  refine ⟨?_, ?_, ?_, by norm_num⟩
  · norm_num [csaMask]
  · unfold specMaskedWeight
    norm_num [csaMask, maskedExpWeight, scoresOne]
  · unfold codeMaskedWeight
    rw [Finset.sum_range_succ, Finset.sum_range_succ, Finset.sum_range_zero]
    norm_num [maskedExpWeight, scoresOne, Real.exp_ne_zero]
    rw [expHalfRow]

/-! C1: the no-look-ahead invariant. -/

set_option maxHeartbeats 1600000 in
/-- C1: the causal property FAILS on the code.  The two valid inference-mode
inputs `[[0, 1]]` (`idsA`) and `[[0, 2]]` (`idsB`) against `cfgC`/`paramsC`
agree at position 0 and differ only at position 1 > 0, yet the logits at
position 0 differ (`63/58` versus `9/10`, for every GELU backend function):
`CausalSelfAttention.call` never applies the tril mask built in `__init__`,
so position 0 attends to position 1. -/
theorem c1_not_causal : ∀ elu : ℝ → ℝ,
    idsA 0 0 = idsB 0 0 ∧
    idsA 0 1 ≠ idsB 0 1 ∧
    logitAt (GPT.forward cfgC paramsC elu 1 2 idsA false noise0) 0 0 0 =
      some (63 / 58) ∧
    logitAt (GPT.forward cfgC paramsC elu 1 2 idsB false noise0) 0 0 0 =
      some (9 / 10) ∧
    ((63 : ℝ) / 58) ≠ 9 / 10 := by
  intro elu
  refine ⟨rfl, by norm_num [idsA, idsB], ?_, ?_, by norm_num⟩
  · have hval : ∀ b < 1, ∀ t < 2, idsA b t < cfgC.vocab_size := by
      intro b hb t ht
      interval_cases t <;> norm_num [idsA, cfgC]
    have hok : GPT.forward cfgC paramsC elu 1 2 idsA false noise0 =
        Except.ok (fun b => gptRow cfgC paramsC elu 2 false noise0 paramsC.pos b (idsA b)) := by
      unfold GPT.forward
      rw [if_pos hval, if_pos (by norm_num [cfgC])]
    rw [hok]
    unfold logitAt
    unfold gptRow gptBlocks
    norm_num [cfgC, paramsC, blockC, attnC, embC, idsA, noise0,
      show List.range 1 = [0] from rfl, List.foldl_cons, List.foldl_nil,
      blockCall, blockAttnRes, csaCall, csaMerged, csaHeadOut, csaAttnWeights,
      codeMaskedWeight, maskedExpWeight, csaScore, csaQ, csaK, csaV, csaQKV,
      mlpCall, denseApply, layerNorm, lnVar, lnMean, dropoutApply, gptEmbed,
      embeddingDecoderCall, decoderKernel, headSize, Finset.sum_range_succ,
      Finset.sum_range_zero, Real.sqrt_one, sqrt25, sqrt16, sqrt841, sqrt400,
      expHalfRow, Nat.div_one, Nat.mod_one, Real.exp_ne_zero]
  · have hval : ∀ b < 1, ∀ t < 2, idsB b t < cfgC.vocab_size := by
      intro b hb t ht
      interval_cases t <;> norm_num [idsB, cfgC]
    have hok : GPT.forward cfgC paramsC elu 1 2 idsB false noise0 =
        Except.ok (fun b => gptRow cfgC paramsC elu 2 false noise0 paramsC.pos b (idsB b)) := by
      unfold GPT.forward
      rw [if_pos hval, if_pos (by norm_num [cfgC])]
    rw [hok]
    unfold logitAt
    unfold gptRow gptBlocks
    norm_num [cfgC, paramsC, blockC, attnC, embC, idsB, noise0,
      show List.range 1 = [0] from rfl, List.foldl_cons, List.foldl_nil,
      blockCall, blockAttnRes, csaCall, csaMerged, csaHeadOut, csaAttnWeights,
      codeMaskedWeight, maskedExpWeight, csaScore, csaQ, csaK, csaV, csaQKV,
      mlpCall, denseApply, layerNorm, lnVar, lnMean, dropoutApply, gptEmbed,
      embeddingDecoderCall, decoderKernel, headSize, Finset.sum_range_succ,
      Finset.sum_range_zero, Real.sqrt_one, sqrt25, sqrt16, sqrt841, sqrt400,
      expHalfRow, Nat.div_one, Nat.mod_one, Real.exp_ne_zero]
